import Mathlib

/-!
Verification development for the Automated-Manual-Comparison repository
(notebook "Feature Matrix with Dask EntitySet").  The notebook ingests the
Home Credit CSV tables, normalizes a sentinel value, coerces key columns,
registers seven tables with a feature-engineering entity/relationship model,
declares six relationships, runs deep feature synthesis, and closes a worker
pool.  Pure data is embedded directly from the notebook's code; the
entity-graph builder operations live in an external library and are modelled
from the specification where marked.
-/

/-- A single tabular cell as it appears after CSV ingestion: a missing entry,
an integer, or a text value.  Fractional numerics are irrelevant to the
properties verified here and are represented by their text form if needed. -/
inductive Cell where
  | na : Cell
  | int : Int → Cell
  | str : String → Cell
deriving DecidableEq

/-- A table's raw data, column oriented: each entry is a column name paired
with that column's cells in row order. -/
abbrev TableData := List (String × List Cell)

/-- Names of the columns of a table's data, in order. -/
def colNames (d : TableData) : List String := d.map (fun p => p.1)

/-- Look up a column's cells by name (first match, as in a dataframe). -/
def findCol (d : TableData) (c : String) : Option (List Cell) :=
  match d with
  | [] => none
  | p :: rest => if p.1 = c then some p.2 else findCol rest c

/-- The magic integer the source data uses to mean missing; the notebook
replaces it during ingestion. -/
def sentinel : Cell := Cell.int 365243

/-- One cell of the notebook's replace step: the sentinel becomes the
standard missing value, every other cell is untouched. -/
def replaceSentinelCell (c : Cell) : Cell :=
  if c = sentinel then Cell.na else c

/-- The notebook's per-table replace step applied to every column. -/
def replaceSentinelTable (d : TableData) : TableData :=
  d.map (fun p => (p.1, p.2.map replaceSentinelCell))

/-- The ingestion step of the notebook: every raw table read from CSV has its
sentinel occurrences normalized, once, right at read time. -/
def ingestAll (raws : List (String × TableData)) : List (String × TableData) :=
  raws.map (fun r => (r.1, replaceSentinelTable r.2))

/-- Whether no cell of a column is the sentinel. -/
def noSentinelCol (cells : List Cell) : Bool :=
  cells.all (fun c => !(c == sentinel))

/-- Whether no cell anywhere in a table is the sentinel. -/
def noSentinelTable (d : TableData) : Bool :=
  d.all (fun p => noSentinelCol p.2)

/-- Whether no cell anywhere in a list of named tables is the sentinel. -/
def noSentinelData (ds : List (String × TableData)) : Bool :=
  ds.all (fun r => noSentinelTable r.2)

/-- The key columns the notebook coerces after ingestion. -/
def keyColumns : List String := ["SK_ID_CURR", "SK_ID_PREV", "SK_ID_BUREAU"]

/-- One cell of the notebook's key-column cleanup: missing entries become the
placeholder identifier 0, everything else is kept. -/
def cleanKeyCell (c : Cell) : Cell :=
  match c with
  | Cell.na => Cell.int 0
  | c => c

/-- The notebook's key-column cleanup over a whole table: every key column
present gets its missing entries filled with 0 and is kept integer valued;
other columns are untouched. -/
def cleanKeysTable (d : TableData) : TableData :=
  d.map (fun p =>
    if keyColumns.contains p.1 then (p.1, p.2.map cleanKeyCell) else p)

/-- The notebook's cleanup pipeline on one table: sentinel normalization at
read time, then key-column filling, before any table is registered. -/
def notebookClean (raw : TableData) : TableData :=
  cleanKeysTable (replaceSentinelTable raw)

/-- Whether a cell is an integer (no missing entry, no text). -/
def isIntCell (c : Cell) : Bool :=
  match c with
  | Cell.int _ => true
  | _ => false

/-- Whether a cell is an integer or a missing entry. -/
def intOrNa (c : Cell) : Bool :=
  match c with
  | Cell.int _ => true
  | Cell.na => true
  | _ => false

/-- Modelled from the spec: the closed set of semantic column types of the
entity-graph builder, which in the source is an external library's dynamic
type-tag objects (the library's Id tag is the foreign-key case). -/
inductive VType where
  | index : VType
  | foreignKey : VType
  | numeric : VType
  | categorical : VType
  | boolean : VType
deriving DecidableEq

/-- Modelled from the spec: a registered table of the entity graph — name,
column data, designated index column and declared per-column semantic types;
the concrete table class lives in the external library. -/
structure TableDef where
  name : String
  data : TableData
  indexCol : String
  schema : List (String × VType)
deriving DecidableEq

/-- Modelled from the spec: a declared foreign-key relationship from a parent
table's index column to a child table's column. -/
structure RelDecl where
  parentTable : String
  parentCol : String
  childTable : String
  childCol : String
deriving DecidableEq

/-- Modelled from the spec: the entity graph under construction — the tables
registered so far and the relationships declared so far; the concrete
entity-set class lives in the external library. -/
structure Builder where
  tables : List TableDef
  rels : List RelDecl
deriving DecidableEq

/-- The empty graph under construction. -/
def emptyBuilder : Builder := { tables := [], rels := [] }

/-- Modelled from the spec: the distinct schema-level registration failures,
each naming the offending table and column. -/
inductive SchemaError where
  | duplicateTableName : String → SchemaError
  | indexAlreadyExists : String → String → SchemaError
  | missingIndexColumn : String → String → SchemaError
  | duplicateIndexValue : String → String → SchemaError
  | unknownColumn : String → String → SchemaError
  | missingType : String → String → SchemaError
deriving DecidableEq

/-- Modelled from the spec: the relationship-declaration failures. -/
inductive RelationshipError where
  | missingTable : String → RelationshipError
  | missingColumn : String → String → RelationshipError
  | notIndex : String → String → RelationshipError
deriving DecidableEq

/-- Modelled from the spec: one structural problem found at finalize time;
a finalize failure carries the list of every problem found. -/
inductive Problem where
  | untypedColumn : String → String → Problem
  | badEndpoint : RelDecl → Problem
  | duplicateRelationship : RelDecl → Problem
deriving DecidableEq

/-- Look up the declared semantic type of a column in a schema mapping. -/
def lookupType (schema : List (String × VType)) (c : String) : Option VType :=
  match schema with
  | [] => none
  | p :: rest => if p.1 = c then some p.2 else lookupType rest c

/-- Row count of column-oriented data (length of the first column). -/
def rowCount (d : TableData) : Nat :=
  match d with
  | [] => 0
  | col :: _ => col.2.length

/-- Modelled from the spec: the dense zero-based sequential identifier column
generated for a table registered with a synthesized index. -/
def genIndex (n : Nat) : List Cell :=
  (List.range n).map (fun i => Cell.int (Int.ofNat i))

/-- Modelled from the spec: the schema checks shared by both registration
modes — every schema entry must name a present column and every present
column must have a declared type — followed by adding the table. -/
def checkSchemaAndAdd (b : Builder) (name : String) (d : TableData)
    (idx : String) (schema : List (String × VType)) : Except SchemaError Builder :=
  match (schema.map (fun p => p.1)).find? (fun c => !((colNames d).contains c)) with
  | some c => Except.error (SchemaError.unknownColumn name c)
  | none =>
    match (colNames d).find? (fun c => (lookupType schema c).isNone) with
    | some c => Except.error (SchemaError.missingType name c)
    | none =>
      Except.ok { tables := b.tables ++ [{ name := name, data := d, indexCol := idx, schema := schema }],
                  rels := b.rels }

/-- Modelled from the spec: table registration of the entity-graph builder
(the external library's entity-from-dataframe operation).  With a synthesized
index the named index column must be absent and a dense sequential identifier
column is generated over the rows in order; without one the index column must
be present and duplicate-free.  Each failure is a distinct schema error
naming the table and column. -/
def registerTable (b : Builder) (name : String) (d : TableData) (idx : String)
    (schema : List (String × VType)) (makeIndex : Bool) : Except SchemaError Builder :=
  if (b.tables.map (fun t => t.name)).contains name then
    Except.error (SchemaError.duplicateTableName name)
  else
    match makeIndex with
    | true =>
      if (colNames d).contains idx then
        Except.error (SchemaError.indexAlreadyExists name idx)
      else
        checkSchemaAndAdd b name ((idx, genIndex (rowCount d)) :: d) idx schema
    | false =>
      match findCol d idx with
      | none => Except.error (SchemaError.missingIndexColumn name idx)
      | some vals =>
        if vals.Nodup then
          checkSchemaAndAdd b name d idx schema
        else
          Except.error (SchemaError.duplicateIndexValue name idx)

/-- Find a registered table by name. -/
def findTable (ts : List TableDef) (n : String) : Option TableDef :=
  match ts with
  | [] => none
  | t :: rest => if t.name = n then some t else findTable rest n

/-- Modelled from the spec: relationship declaration of the entity-graph
builder (the external library's relationship object plus add-relationships).
Both tables must already be registered, the parent column must be the parent
table's index column, and the child column must exist in the child table; no
value-level check between parent and child key values is performed. -/
def declareRelationship (b : Builder) (pt pc ct cc : String) :
    Except RelationshipError Builder :=
  match findTable b.tables pt, findTable b.tables ct with
  | none, _ => Except.error (RelationshipError.missingTable pt)
  | some _, none => Except.error (RelationshipError.missingTable ct)
  | some p, some c =>
    if pc = p.indexCol then
      if (colNames c.data).contains cc then
        Except.ok { tables := b.tables,
                    rels := b.rels ++ [{ parentTable := pt, parentCol := pc,
                                         childTable := ct, childCol := cc }] }
      else
        Except.error (RelationshipError.missingColumn ct cc)
    else
      Except.error (RelationshipError.notIndex pt pc)

/-- The relationships the caller's graph holds after a declaration attempt:
the new list on success, the unchanged old list on failure. -/
def relsAfterDeclare (b : Builder) (pt pc ct cc : String) : List RelDecl :=
  match declareRelationship b pt pc ct cc with
  | Except.ok b2 => b2.rels
  | Except.error _ => b.rels

/-- Modelled from the spec: the finalized, immutable entity graph handed to
the feature-synthesis collaborator. -/
structure EntityGraph where
  tables : List TableDef
  rels : List RelDecl
deriving DecidableEq

/-- Problems of one table at finalize time: every present column lacking a
declared semantic type, named with the table. -/
def tableUntypedProblems (t : TableDef) : List Problem :=
  (colNames t.data).filterMap (fun c =>
    match lookupType t.schema c with
    | none => some (Problem.untypedColumn t.name c)
    | some _ => none)

/-- All missing-semantic-type problems across the registered tables. -/
def untypedProblems (ts : List TableDef) : List Problem :=
  match ts with
  | [] => []
  | t :: rest => tableUntypedProblems t ++ untypedProblems rest

/-- Endpoint problems of one declared relationship: parent and child table
must resolve, the parent column must be the parent's index, and the child
column must exist. -/
def relEndpointProblems (ts : List TableDef) (r : RelDecl) : List Problem :=
  (match findTable ts r.parentTable with
   | none => [Problem.badEndpoint r]
   | some p => if r.parentCol = p.indexCol then [] else [Problem.badEndpoint r]) ++
  (match findTable ts r.childTable with
   | none => [Problem.badEndpoint r]
   | some c => if (colNames c.data).contains r.childCol then [] else [Problem.badEndpoint r])

/-- All endpoint problems across the declared relationships. -/
def allRelProblems (ts : List TableDef) (rs : List RelDecl) : List Problem :=
  match rs with
  | [] => []
  | r :: rest => relEndpointProblems ts r ++ allRelProblems ts rest

/-- All duplicate-declaration problems: the same parent/child/column tuple
declared twice. -/
def dupRelProblems (rs : List RelDecl) : List Problem :=
  match rs with
  | [] => []
  | r :: rest =>
    (if rest.contains r then [Problem.duplicateRelationship r] else []) ++ dupRelProblems rest

/-- Every structural problem of the graph under construction. -/
def allProblems (b : Builder) : List Problem :=
  untypedProblems b.tables ++ allRelProblems b.tables b.rels ++ dupRelProblems b.rels

/-- Modelled from the spec: graph finalization of the entity-graph builder.
It validates the whole graph and either returns the immutable entity graph
or fails with the single aggregate error listing every problem found. -/
def finalize (b : Builder) : Except (List Problem) EntityGraph :=
  if allProblems b = [] then
    Except.ok { tables := b.tables, rels := b.rels }
  else
    Except.error (allProblems b)

/-- Modelled from the spec: the feature matrix produced by the external
deep-feature-synthesis collaborator, which this repository does not
implement; its rows are the root-table instances. -/
def dfsModel (g : EntityGraph) (target : String) : List Cell :=
  match findTable g.tables target with
  | some t => (findCol t.data t.indexCol).getD []
  | none => []

/-- The pipeline state once the graph is finalized: the graph plus the
feature matrix computed so far, if any. -/
structure SynthState where
  graph : EntityGraph
  fm : Option (List Cell)
deriving DecidableEq

/-- Modelled from the spec: handing the finalized graph to the external
feature-synthesis collaborator.  The graph is read: the result state carries
the same graph and the computed feature matrix. -/
def runSynthesis (s : SynthState) (target : String) : SynthState :=
  { graph := s.graph, fm := some (dfsModel s.graph target) }

/-- The top-level steps of the notebook's run, in the order its code cells
execute: close a leftover client from an earlier run (inside a
try-except-pass), open the new client, read the CSVs, clean the data, build
the entity set, run synthesis, write the output, compute the matrix in
memory, and finally close the client. -/
inductive Step where
  | closePrior : Step
  | openClient : Step
  | readData : Step
  | cleanData : Step
  | buildGraph : Step
  | synth : Step
  | writeOutput : Step
  | computeInMemory : Step
  | closeClient : Step
deriving DecidableEq

/-- The notebook's cell order. -/
def notebookScript : List Step :=
  [Step.closePrior, Step.openClient, Step.readData, Step.cleanData,
   Step.buildGraph, Step.synth, Step.writeOutput, Step.computeInMemory,
   Step.closeClient]

/-- The observable session state: whether a worker-pool client is open. -/
structure RunState where
  clientOpen : Bool
deriving DecidableEq

/-- Effect of one step on the session state.  Closing the prior client is
wrapped in try-except-pass in the source, so it always succeeds and leaves
no client open; the intermediate data steps do not touch the client. -/
def execStep (s : RunState) (st : Step) : RunState :=
  match st with
  | Step.closePrior => { clientOpen := false }
  | Step.openClient => { clientOpen := true }
  | Step.closeClient => { clientOpen := false }
  | _ => s

/-- Whether an exception in this step escapes the cell.  The prior-client
close swallows its exceptions; the notebook's other cells have no handler. -/
def stepCanRaise (st : Step) : Bool :=
  match st with
  | Step.closePrior => false
  | _ => true

/-- Run the script in order.  A step marked failing by the scenario raises;
since the source has no handler or finalizer around the run, execution stops
there and the state at that point is the exit state. -/
def runScript (s : RunState) (steps : List Step) (failing : Step → Bool) : RunState :=
  match steps with
  | [] => s
  | st :: rest =>
    if failing st && stepCanRaise st then s
    else runScript (execStep s st) rest failing

/-- The failure scenario in which the deep-feature-synthesis step raises. -/
def failAtSynth (st : Step) : Bool :=
  match st with
  | Step.synth => true
  | _ => false

/-- The scenario in which every step succeeds. -/
def noFailure (_ : Step) : Bool := false

/-- Columns of the POS_CASH_balance table as read from CSV, before the
notebook drops SK_ID_CURR from it. -/
def cashRawCols : List String :=
  ["SK_ID_PREV", "SK_ID_CURR", "MONTHS_BALANCE", "CNT_INSTALMENT",
   "CNT_INSTALMENT_FUTURE", "NAME_CONTRACT_STATUS", "SK_DPD", "SK_DPD_DEF"]

/-- Columns of the credit_card_balance table as read from CSV, before the
notebook drops SK_ID_CURR from it. -/
def creditRawCols : List String :=
  ["SK_ID_PREV", "SK_ID_CURR", "MONTHS_BALANCE", "AMT_BALANCE",
   "AMT_CREDIT_LIMIT_ACTUAL", "AMT_DRAWINGS_ATM_CURRENT", "AMT_DRAWINGS_CURRENT",
   "AMT_DRAWINGS_OTHER_CURRENT", "AMT_DRAWINGS_POS_CURRENT",
   "AMT_INST_MIN_REGULARITY", "AMT_PAYMENT_CURRENT", "AMT_PAYMENT_TOTAL_CURRENT",
   "AMT_RECEIVABLE_PRINCIPAL", "AMT_RECIVABLE", "AMT_TOTAL_RECEIVABLE",
   "CNT_DRAWINGS_ATM_CURRENT", "CNT_DRAWINGS_CURRENT",
   "CNT_DRAWINGS_OTHER_CURRENT", "CNT_DRAWINGS_POS_CURRENT",
   "CNT_INSTALMENT_MATURE_CUM", "NAME_CONTRACT_STATUS", "SK_DPD", "SK_DPD_DEF"]

/-- Columns of the installments_payments table as read from CSV, before the
notebook drops SK_ID_CURR from it. -/
def installmentsRawCols : List String :=
  ["SK_ID_PREV", "SK_ID_CURR", "NUM_INSTALMENT_VERSION", "NUM_INSTALMENT_NUMBER",
   "DAYS_INSTALMENT", "DAYS_ENTRY_PAYMENT", "AMT_INSTALMENT", "AMT_PAYMENT"]

/-- The notebook's column drop: removing one named column from a table's
column list. -/
def dropColumn (cols : List String) (c : String) : List String :=
  cols.filter (fun x => x != c)

/-- The cash table's columns after the notebook drops SK_ID_CURR. -/
def cashCols : List String := dropColumn cashRawCols "SK_ID_CURR"

/-- The credit table's columns after the notebook drops SK_ID_CURR. -/
def creditCols : List String := dropColumn creditRawCols "SK_ID_CURR"

/-- The installments table's columns after the notebook drops SK_ID_CURR. -/
def installmentsCols : List String := dropColumn installmentsRawCols "SK_ID_CURR"

/-- The seven entity names the notebook registers. -/
def notebookTables : List String :=
  ["app", "bureau", "previous", "bureau_balance", "cash", "installments", "credit"]

/-- The six relationships the notebook declares, in its order. -/
def notebookRelationships : List RelDecl :=
  [{ parentTable := "app", parentCol := "SK_ID_CURR",
     childTable := "bureau", childCol := "SK_ID_CURR" },
   { parentTable := "bureau", parentCol := "SK_ID_BUREAU",
     childTable := "bureau_balance", childCol := "SK_ID_BUREAU" },
   { parentTable := "app", parentCol := "SK_ID_CURR",
     childTable := "previous", childCol := "SK_ID_CURR" },
   { parentTable := "previous", parentCol := "SK_ID_PREV",
     childTable := "cash", childCol := "SK_ID_PREV" },
   { parentTable := "previous", parentCol := "SK_ID_PREV",
     childTable := "installments", childCol := "SK_ID_PREV" },
   { parentTable := "previous", parentCol := "SK_ID_PREV",
     childTable := "credit", childCol := "SK_ID_PREV" }]

/-- Parent of a table according to the declared relationships, if any. -/
def parentOf (rs : List RelDecl) (t : String) : Option String :=
  match rs with
  | [] => none
  | r :: rest => if r.childTable = t then some r.parentTable else parentOf rest t

/-- Whether repeatedly following parents from a table reaches the root table
within the given number of steps. -/
def reachesRoot (rs : List RelDecl) (root : String) (fuel : Nat) (t : String) : Bool :=
  match fuel with
  | 0 => t == root
  | fuel + 1 =>
    if t == root then true
    else
      match parentOf rs t with
      | some p => reachesRoot rs root fuel p
      | none => false

/-- The parent table of the end-to-end referential scenario: three
application rows keyed 1, 2, 3. -/
def appDemoData : TableData := [("SK_ID_CURR", [Cell.int 1, Cell.int 2, Cell.int 3])]

/-- Schema of the demo parent table. -/
def appDemoSchema : List (String × VType) := [("SK_ID_CURR", VType.index)]

/-- The child table of the end-to-end referential scenario: four bureau rows
whose foreign keys reference 1, 1, 2 and the dangling value 9. -/
def bureauDemoData : TableData :=
  [("SK_ID_BUREAU", [Cell.int 10, Cell.int 11, Cell.int 12, Cell.int 13]),
   ("SK_ID_CURR", [Cell.int 1, Cell.int 1, Cell.int 2, Cell.int 9])]

/-- Schema of the demo child table. -/
def bureauDemoSchema : List (String × VType) :=
  [("SK_ID_BUREAU", VType.index), ("SK_ID_CURR", VType.foreignKey)]

/-- A five-row cash table without an index column, for registration with a
synthesized index. -/
def cashDemoData : TableData :=
  [("MONTHS_BALANCE", [Cell.int 1, Cell.int 2, Cell.int 3, Cell.int 4, Cell.int 5])]

/-- Schema of the demo cash table, covering the synthesized index column. -/
def cashDemoSchema : List (String × VType) :=
  [("cash_index", VType.index), ("MONTHS_BALANCE", VType.numeric)]

/-- A graph with two registered tables, used to exercise an invalid
relationship declaration from a non-index parent column. -/
def relDemoBuilder : Builder :=
  { tables :=
      [{ name := "app",
         data := [("SK_ID_CURR", [Cell.int 1]), ("AMT_CREDIT", [Cell.int 2])],
         indexCol := "SK_ID_CURR",
         schema := [("SK_ID_CURR", VType.index), ("AMT_CREDIT", VType.numeric)] },
       { name := "bureau",
         data := [("SK_ID_BUREAU", [Cell.int 4]), ("SK_ID_CURR", [Cell.int 1])],
         indexCol := "SK_ID_BUREAU",
         schema := [("SK_ID_BUREAU", VType.index), ("SK_ID_CURR", VType.foreignKey)] }],
    rels := [] }

/-- A graph under construction in which two different tables each have a
column with no declared semantic type. -/
def twoProblemBuilder : Builder :=
  { tables :=
      [{ name := "alpha", data := [("x", [Cell.int 1])], indexCol := "x", schema := [] },
       { name := "beta", data := [("y", [Cell.int 2])], indexCol := "y", schema := [] }],
    rels := [] }

lemma replaceSentinelCell_ne (c : Cell) : (replaceSentinelCell c == sentinel) = false := by
  by_cases h : c = sentinel
  · subst h; decide
  · simp [replaceSentinelCell, h]

lemma replaceSentinelCell_idem (c : Cell) :
    replaceSentinelCell (replaceSentinelCell c) = replaceSentinelCell c := by
  by_cases h : c = sentinel
  · subst h; decide
  · simp [replaceSentinelCell, h]

lemma noSentinelCol_map (cells : List Cell) :
    noSentinelCol (cells.map replaceSentinelCell) = true := by
  rw [noSentinelCol, List.all_eq_true]
  intro c hc
  rcases List.mem_map.mp hc with ⟨a, _, rfl⟩
  simp [replaceSentinelCell_ne]

lemma noSentinelTable_replace (d : TableData) :
    noSentinelTable (replaceSentinelTable d) = true := by
  rw [noSentinelTable, List.all_eq_true]
  intro p hp
  rcases List.mem_map.mp hp with ⟨q, _, rfl⟩
  simpa using noSentinelCol_map q.2

lemma noSentinelData_ingest (raws : List (String × TableData)) :
    noSentinelData (ingestAll raws) = true := by
  rw [noSentinelData, List.all_eq_true]
  intro r hr
  rcases List.mem_map.mp hr with ⟨q, _, rfl⟩
  simpa using noSentinelTable_replace q.2

lemma map_replaceSentinel_idem (cells : List Cell) :
    (cells.map replaceSentinelCell).map replaceSentinelCell = cells.map replaceSentinelCell := by
  induction cells with
  | nil => rfl
  | cons c cs ih => simp [replaceSentinelCell_idem, ih]

lemma replaceSentinelTable_idem (d : TableData) :
    replaceSentinelTable (replaceSentinelTable d) = replaceSentinelTable d := by
  induction d with
  | nil => rfl
  | cons p rest ih =>
    simp only [replaceSentinelTable, List.map_cons] at *
    rw [map_replaceSentinel_idem]
    exact congrArg _ ih

lemma ingestAll_idem (raws : List (String × TableData)) :
    ingestAll (ingestAll raws) = ingestAll raws := by
  induction raws with
  | nil => rfl
  | cons r rest ih =>
    simp only [ingestAll, List.map_cons] at *
    rw [replaceSentinelTable_idem]
    exact congrArg _ ih

/-- C3: sentinel normalization at ingestion replaces every occurrence of the
magic integer 365243 with the missing value in every column of every table,
is applied once at read time (the ingestion step itself establishes the
property, so no per-query pass is needed), and is idempotent both per table
and over the whole ingested dataset. -/
theorem sentinel_normalization_total_idempotent
    (raws : List (String × TableData)) (d : TableData) :
    noSentinelData (ingestAll raws) = true ∧
    replaceSentinelTable (replaceSentinelTable d) = replaceSentinelTable d ∧
    ingestAll (ingestAll raws) = ingestAll raws :=
  ⟨noSentinelData_ingest raws, replaceSentinelTable_idem d, ingestAll_idem raws⟩

lemma cleanKey_replace_isInt (c : Cell) (h : intOrNa c = true) :
    isIntCell (cleanKeyCell (replaceSentinelCell c)) = true := by
  cases c with
  | na => decide
  | int n =>
    by_cases hs : Cell.int n = sentinel
    · rw [hs]; decide
    · simp [replaceSentinelCell, cleanKeyCell, isIntCell, hs]
  | str s => simp [intOrNa] at h

lemma cleanKey_replace_eq (c : Cell) :
    cleanKeyCell (replaceSentinelCell c)
      = if c = Cell.na ∨ c = sentinel then Cell.int 0 else c := by
  cases c with
  | na => decide
  | str s => simp [replaceSentinelCell, cleanKeyCell, sentinel]
  | int n =>
    by_cases hs : Cell.int n = sentinel
    · rw [hs]; decide
    · simp [replaceSentinelCell, cleanKeyCell, hs]

lemma all_int_after_clean (cells : List Cell) (h : cells.all intOrNa = true) :
    ((cells.map replaceSentinelCell).map cleanKeyCell).all isIntCell = true := by
  rw [List.all_eq_true] at *
  intro c hc
  rw [List.map_map] at hc
  rcases List.mem_map.mp hc with ⟨a, ha, rfl⟩
  simpa using cleanKey_replace_isInt a (h a ha)

lemma map_clean_eq (cells : List Cell) :
    (cells.map replaceSentinelCell).map cleanKeyCell
      = cells.map (fun c => if c = Cell.na ∨ c = sentinel then Cell.int 0 else c) := by
  rw [List.map_map]
  exact List.map_congr_left (fun a _ => cleanKey_replace_eq a)

lemma notebookClean_eq (raw : TableData) :
    notebookClean raw = raw.map (fun p =>
      if keyColumns.contains p.1 then (p.1, (p.2.map replaceSentinelCell).map cleanKeyCell)
      else (p.1, p.2.map replaceSentinelCell)) := by
  rw [notebookClean, replaceSentinelTable, cleanKeysTable, List.map_map]
  exact List.map_congr_left (fun p _ => by by_cases hk : keyColumns.contains p.1 <;> simp [hk])

/-- C9: after the notebook's ingestion cleanup (sentinel replacement at read
time followed by the key-column fill) and before any table is registered,
every key column holds only integer values with no missing entries: each
missing cell, including one produced by replacing the sentinel 365243, has
become the placeholder identifier 0; and the cleanup pipeline applies
exactly this transformation to every key column of every table that
contains it. -/
theorem key_columns_cleaned_to_ints (cells : List Cell) (raw : TableData)
    (h : cells.all intOrNa = true) :
    ((cells.map replaceSentinelCell).map cleanKeyCell).all isIntCell = true ∧
    (cells.map replaceSentinelCell).map cleanKeyCell
      = cells.map (fun c => if c = Cell.na ∨ c = sentinel then Cell.int 0 else c) ∧
    notebookClean raw = raw.map (fun p =>
      if keyColumns.contains p.1 then (p.1, (p.2.map replaceSentinelCell).map cleanKeyCell)
      else (p.1, p.2.map replaceSentinelCell)) :=
  ⟨all_int_after_clean cells h, map_clean_eq cells, notebookClean_eq raw⟩

/-- C9 witness: the cleanup evaluated on a concrete key column holding a
plain key, a missing entry and the sentinel. -/
theorem key_columns_cleaned_to_ints_witness :
    (([Cell.int 5, Cell.na, Cell.int 365243].map replaceSentinelCell).map cleanKeyCell).all
        isIntCell = true ∧
    ([Cell.int 5, Cell.na, Cell.int 365243].map replaceSentinelCell).map cleanKeyCell
      = [Cell.int 5, Cell.na, Cell.int 365243].map
          (fun c => if c = Cell.na ∨ c = sentinel then Cell.int 0 else c) ∧
    notebookClean [("SK_ID_CURR", [Cell.na, Cell.int 7])]
      = [("SK_ID_CURR", [Cell.na, Cell.int 7])].map (fun p =>
          if keyColumns.contains p.1 then (p.1, (p.2.map replaceSentinelCell).map cleanKeyCell)
          else (p.1, p.2.map replaceSentinelCell)) :=
  key_columns_cleaned_to_ints [Cell.int 5, Cell.na, Cell.int 365243]
    [("SK_ID_CURR", [Cell.na, Cell.int 7])] (by decide)

/-- C10: SK_ID_CURR is present in the raw cash, credit and installments data
and dropped before registration; the six declared relationships then give
every child table exactly one parent and form a tree rooted at the app
table (app to bureau to bureau_balance, app to previous, previous to cash,
installments and credit). -/
theorem child_tables_single_parent_tree :
    cashRawCols.contains "SK_ID_CURR" = true ∧
    creditRawCols.contains "SK_ID_CURR" = true ∧
    installmentsRawCols.contains "SK_ID_CURR" = true ∧
    cashCols.contains "SK_ID_CURR" = false ∧
    creditCols.contains "SK_ID_CURR" = false ∧
    installmentsCols.contains "SK_ID_CURR" = false ∧
    notebookRelationships.map (fun r => r.childTable)
      = ["bureau", "bureau_balance", "previous", "cash", "installments", "credit"] ∧
    (notebookRelationships.map (fun r => r.childTable)).Nodup ∧
    notebookRelationships.map (fun r => (r.parentTable, r.childTable))
      = [("app", "bureau"), ("bureau", "bureau_balance"), ("app", "previous"),
         ("previous", "cash"), ("previous", "installments"), ("previous", "credit")] ∧
    parentOf notebookRelationships "app" = none ∧
    notebookTables.all (fun t => reachesRoot notebookRelationships "app" 6 t) = true := by
  decide

/-- C8 counterexample: in the run in which the deep-feature-synthesis step
raises, the script exits with the worker-pool client still open — the
resource is not released on that exit path, contradicting the claim that it
is released on every exit path of a run. -/
theorem session_left_open_on_midrun_failure :
    runScript { clientOpen := false } notebookScript failAtSynth = { clientOpen := true } := by
  decide

/-- C8 amended: whatever session state an earlier run left behind, the first
cell closes any prior client before the new one is opened, and a run in
which every intermediate step succeeds releases the client at its end; a run
in which an intermediate step fails exits without the final close. -/
theorem session_lifecycle_amended (s : RunState) :
    execStep s Step.closePrior = { clientOpen := false } ∧
    runScript s notebookScript noFailure = { clientOpen := false } ∧
    notebookScript.take 2 = [Step.closePrior, Step.openClient] :=
  ⟨rfl, rfl, rfl⟩

/-- C4: declaring the relationship from the app index to the bureau foreign
key whose values include 9 — a key with no matching parent row — succeeds,
and so does finalization: no value-level referential check is performed
between parent and child key values. -/
theorem dangling_foreign_key_accepted :
    ∃ b1 b2 b3 g,
      registerTable emptyBuilder "app" appDemoData "SK_ID_CURR" appDemoSchema false
        = Except.ok b1 ∧
      registerTable b1 "bureau" bureauDemoData "SK_ID_BUREAU" bureauDemoSchema false
        = Except.ok b2 ∧
      declareRelationship b2 "app" "SK_ID_CURR" "bureau" "SK_ID_CURR" = Except.ok b3 ∧
      finalize b3 = Except.ok g ∧
      ((findCol bureauDemoData "SK_ID_CURR").getD []).contains (Cell.int 9) = true ∧
      ((findCol appDemoData "SK_ID_CURR").getD []).contains (Cell.int 9) = false := by
  refine ⟨_, _, _, _, rfl, rfl, rfl, rfl, ?_, ?_⟩ <;> decide

/-- C7: handing a finalized entity graph to the feature-synthesis
collaborator computes the feature matrix without touching the graph: the
graph, its tables and its relationships are identical before and after. -/
theorem graph_readonly_after_finalize (g : EntityGraph) (target : String) :
    (runSynthesis { graph := g, fm := none } target).graph = g ∧
    (runSynthesis { graph := g, fm := none } target).graph.tables = g.tables ∧
    (runSynthesis { graph := g, fm := none } target).graph.rels = g.rels :=
  ⟨rfl, rfl, rfl⟩

lemma registerTable_true_eq (b : Builder) (name : String) (d : TableData)
    (idx : String) (schema : List (String × VType)) :
    registerTable b name d idx schema true =
      if (b.tables.map (fun t => t.name)).contains name then
        Except.error (SchemaError.duplicateTableName name)
      else if (colNames d).contains idx then
        Except.error (SchemaError.indexAlreadyExists name idx)
      else
        checkSchemaAndAdd b name ((idx, genIndex (rowCount d)) :: d) idx schema := rfl

lemma registerTable_false_eq (b : Builder) (name : String) (d : TableData)
    (idx : String) (schema : List (String × VType)) :
    registerTable b name d idx schema false =
      if (b.tables.map (fun t => t.name)).contains name then
        Except.error (SchemaError.duplicateTableName name)
      else
        match findCol d idx with
        | none => Except.error (SchemaError.missingIndexColumn name idx)
        | some vals =>
          if vals.Nodup then
            checkSchemaAndAdd b name d idx schema
          else
            Except.error (SchemaError.duplicateIndexValue name idx) := rfl

lemma checkSchemaAndAdd_ok (b : Builder) (name : String) (d : TableData)
    (idx : String) (schema : List (String × VType))
    (h : (checkSchemaAndAdd b name d idx schema).isOk = true) :
    checkSchemaAndAdd b name d idx schema = Except.ok
      { tables := b.tables ++ [{ name := name, data := d, indexCol := idx, schema := schema }],
        rels := b.rels } := by
  rw [checkSchemaAndAdd] at h ⊢
  split at h
  · simp [Except.isOk, Except.toBool] at h
  · split at h
    · simp [Except.isOk, Except.toBool] at h
    · rfl

lemma cellIntOfNat_injective : Function.Injective (fun i : Nat => Cell.int (Int.ofNat i)) := by
  intro a b hab
  simpa using hab

lemma genIndex_nodup (n : Nat) : (genIndex n).Nodup := by
  rw [genIndex]
  exact (List.nodup_range n).map cellIntOfNat_injective

/-- C1: whenever a table is registered with a synthesized index, the named
index column did not already exist in the input data, and the registered
table carries a generated index column equal to the dense zero-based
sequence over the input rows in order — one value per row, length equal to
the row count, all values pairwise distinct with no gaps. -/
theorem registerTable_makeIndex_dense_unique (b : Builder) (name idx : String)
    (d : TableData) (schema : List (String × VType))
    (h : (registerTable b name d idx schema true).isOk = true) :
    (colNames d).contains idx = false ∧
    registerTable b name d idx schema true = Except.ok
      { tables := b.tables ++
          [{ name := name, data := (idx, genIndex (rowCount d)) :: d,
             indexCol := idx, schema := schema }],
        rels := b.rels } ∧
    findCol ((idx, genIndex (rowCount d)) :: d) idx = some (genIndex (rowCount d)) ∧
    (genIndex (rowCount d)).length = rowCount d ∧
    (genIndex (rowCount d)).Nodup := by
  rw [registerTable_true_eq] at h ⊢
  by_cases h1 : (b.tables.map (fun t => t.name)).contains name = true
  · rw [if_pos h1] at h; simp [Except.isOk, Except.toBool] at h
  · rw [if_neg h1] at h ⊢
    by_cases h2 : (colNames d).contains idx = true
    · rw [if_pos h2] at h; simp [Except.isOk, Except.toBool] at h
    · rw [if_neg h2] at h ⊢
      refine ⟨Bool.not_eq_true _ |>.mp h2, checkSchemaAndAdd_ok _ _ _ _ _ h, ?_, ?_, ?_⟩
      · rw [findCol, if_pos rfl]
      · rw [genIndex, List.length_map, List.length_range]
      · exact genIndex_nodup (rowCount d)

/-- C1 witness: registering a five-row cash table with a synthesized index
yields the dense length-five identifier column. -/
theorem registerTable_makeIndex_dense_unique_witness :
    (colNames cashDemoData).contains "cash_index" = false ∧
    registerTable emptyBuilder "cash" cashDemoData "cash_index" cashDemoSchema true = Except.ok
      { tables := emptyBuilder.tables ++
          [{ name := "cash", data := ("cash_index", genIndex (rowCount cashDemoData)) :: cashDemoData,
             indexCol := "cash_index", schema := cashDemoSchema }],
        rels := emptyBuilder.rels } ∧
    findCol (("cash_index", genIndex (rowCount cashDemoData)) :: cashDemoData) "cash_index"
      = some (genIndex (rowCount cashDemoData)) ∧
    (genIndex (rowCount cashDemoData)).length = rowCount cashDemoData ∧
    (genIndex (rowCount cashDemoData)).Nodup :=
  registerTable_makeIndex_dense_unique emptyBuilder "cash" "cash_index" cashDemoData
    cashDemoSchema (by decide)

/-- C2: registering a table without a synthesized index, whose declared
index column contains a value occurring in more than one row, fails with the
schema error naming the offending table and column — duplicates are never
silently tolerated. -/
theorem registerTable_duplicate_index_rejected (b : Builder) (name idx : String)
    (d : TableData) (schema : List (String × VType)) (vals : List Cell)
    (h1 : (b.tables.map (fun t => t.name)).contains name = false)
    (h2 : findCol d idx = some vals)
    (h3 : ¬ vals.Nodup) :
    registerTable b name d idx schema false
      = Except.error (SchemaError.duplicateIndexValue name idx) := by
  rw [registerTable_false_eq, if_neg (by rw [h1]; decide)]
  simp only [h2]
  rw [if_neg h3]

/-- C2 witness: registering a two-row table whose declared index column
repeats the value 1 fails with the duplicate-index schema error. -/
theorem registerTable_duplicate_index_rejected_witness :
    registerTable emptyBuilder "app" [("SK_ID_CURR", [Cell.int 1, Cell.int 1])] "SK_ID_CURR"
        [("SK_ID_CURR", VType.index)] false
      = Except.error (SchemaError.duplicateIndexValue "app" "SK_ID_CURR") :=
  registerTable_duplicate_index_rejected emptyBuilder "app" "SK_ID_CURR"
    [("SK_ID_CURR", [Cell.int 1, Cell.int 1])] [("SK_ID_CURR", VType.index)]
    [Cell.int 1, Cell.int 1] (by decide) (by decide) (by decide)

lemma relsAfterDeclare_of_error (b : Builder) (pt pc ct cc : String)
    (e : RelationshipError) (he : declareRelationship b pt pc ct cc = Except.error e) :
    relsAfterDeclare b pt pc ct cc = b.rels := by
  rw [relsAfterDeclare, he]

/-- C5: a relationship declaration whose parent table or child table is not
registered, whose parent column is not the parent table's index column, or
whose child column does not exist, fails with a relationship error, and the
caller's graph keeps exactly its previous relationships — nothing is
added. -/
theorem declareRelationship_invalid_rejected (b : Builder) (pt pc ct cc : String)
    (h : findTable b.tables pt = none ∨ findTable b.tables ct = none ∨
         (∃ p, findTable b.tables pt = some p ∧ pc ≠ p.indexCol) ∨
         (∃ c, findTable b.tables ct = some c ∧ (colNames c.data).contains cc = false)) :
    (∃ e, declareRelationship b pt pc ct cc = Except.error e) ∧
    relsAfterDeclare b pt pc ct cc = b.rels := by
  have herr : ∃ e, declareRelationship b pt pc ct cc = Except.error e := by
    rcases h with h1 | h2 | ⟨p, hp, hne⟩ | ⟨c, hc, hcc⟩
    · exact ⟨RelationshipError.missingTable pt, by simp [declareRelationship, h1]⟩
    · cases hpt : findTable b.tables pt with
      | none => exact ⟨RelationshipError.missingTable pt, by simp [declareRelationship, hpt]⟩
      | some p =>
        exact ⟨RelationshipError.missingTable ct, by simp [declareRelationship, hpt, h2]⟩
    · cases hct : findTable b.tables ct with
      | none => exact ⟨RelationshipError.missingTable ct, by simp [declareRelationship, hp, hct]⟩
      | some c =>
        exact ⟨RelationshipError.notIndex pt pc, by simp [declareRelationship, hp, hct, hne]⟩
    · cases hpt : findTable b.tables pt with
      | none => exact ⟨RelationshipError.missingTable pt, by simp [declareRelationship, hpt]⟩
      | some p =>
        by_cases hpc : pc = p.indexCol
        · have hcc2 : cc ∉ colNames c.data := by simpa using hcc
          exact ⟨RelationshipError.missingColumn ct cc,
            by simp [declareRelationship, hpt, hc, hpc, hcc2]⟩
        · exact ⟨RelationshipError.notIndex pt pc,
            by simp [declareRelationship, hpt, hc, hpc]⟩
  obtain ⟨e, he⟩ := herr
  exact ⟨⟨e, he⟩, relsAfterDeclare_of_error b pt pc ct cc e he⟩

/-- C5 witness: declaring a relationship from the non-index parent column
AMT_CREDIT of the registered app table fails and adds no relationship. -/
theorem declareRelationship_invalid_rejected_witness :
    (∃ e, declareRelationship relDemoBuilder "app" "AMT_CREDIT" "bureau" "SK_ID_CURR"
        = Except.error e) ∧
    relsAfterDeclare relDemoBuilder "app" "AMT_CREDIT" "bureau" "SK_ID_CURR"
      = relDemoBuilder.rels :=
  declareRelationship_invalid_rejected relDemoBuilder "app" "AMT_CREDIT" "bureau" "SK_ID_CURR"
    (Or.inr (Or.inr (Or.inl ⟨_, rfl, by decide⟩)))

lemma mem_tableUntypedProblems (t : TableDef) (c : String)
    (hc : c ∈ colNames t.data) (hn : lookupType t.schema c = none) :
    Problem.untypedColumn t.name c ∈ tableUntypedProblems t := by
  rw [tableUntypedProblems]
  exact List.mem_filterMap.mpr ⟨c, hc, by simp [hn]⟩

lemma mem_untypedProblems (ts : List TableDef) (t : TableDef) (c : String)
    (ht : t ∈ ts) (hc : c ∈ colNames t.data) (hn : lookupType t.schema c = none) :
    Problem.untypedColumn t.name c ∈ untypedProblems ts := by
  induction ts with
  | nil => cases ht
  | cons t0 rest ih =>
    rw [untypedProblems]
    rcases List.mem_cons.mp ht with rfl | hmem
    · exact List.mem_append_left _ (mem_tableUntypedProblems t c hc hn)
    · exact List.mem_append_right _ (ih hmem)

/-- C6: when two different registered tables each contain a column with no
declared semantic type, finalization fails with the single aggregate error
that lists every detected problem, and that list names the offending table
and column of both problems — not only the first one found. -/
theorem finalize_aggregates_problems (b : Builder) (t1 t2 : TableDef) (c1 c2 : String)
    (_hdiff : t1.name ≠ t2.name)
    (ht1 : t1 ∈ b.tables) (hc1 : c1 ∈ colNames t1.data)
    (hn1 : lookupType t1.schema c1 = none)
    (ht2 : t2 ∈ b.tables) (hc2 : c2 ∈ colNames t2.data)
    (hn2 : lookupType t2.schema c2 = none) :
    finalize b = Except.error (allProblems b) ∧
    Problem.untypedColumn t1.name c1 ∈ allProblems b ∧
    Problem.untypedColumn t2.name c2 ∈ allProblems b := by
  have m1 : Problem.untypedColumn t1.name c1 ∈ allProblems b := by
    rw [allProblems]
    exact List.mem_append_left _ (List.mem_append_left _
      (mem_untypedProblems b.tables t1 c1 ht1 hc1 hn1))
  have m2 : Problem.untypedColumn t2.name c2 ∈ allProblems b := by
    rw [allProblems]
    exact List.mem_append_left _ (List.mem_append_left _
      (mem_untypedProblems b.tables t2 c2 ht2 hc2 hn2))
  refine ⟨?_, m1, m2⟩
  rw [finalize, if_neg (List.ne_nil_of_mem m1)]

/-- C6 witness: a graph with two one-column tables, both columns untyped,
finalizes into the single aggregate error containing both problems. -/
theorem finalize_aggregates_problems_witness :
    finalize twoProblemBuilder = Except.error (allProblems twoProblemBuilder) ∧
    Problem.untypedColumn "alpha" "x" ∈ allProblems twoProblemBuilder ∧
    Problem.untypedColumn "beta" "y" ∈ allProblems twoProblemBuilder :=
  finalize_aggregates_problems twoProblemBuilder
    { name := "alpha", data := [("x", [Cell.int 1])], indexCol := "x", schema := [] }
    { name := "beta", data := [("y", [Cell.int 2])], indexCol := "y", schema := [] }
    "x" "y" (by decide) (by decide) (by decide) (by decide) (by decide) (by decide) (by decide)
